import Mathlib

/-!
Shallow embedding of `src/static/app.js` (the aquarium water-quality chart
page) and proofs about its behaviour.

The embedded program is the second, current version of the file (the part
the specification describes): `fetchMeasurements`, `parseDate`,
`buildPoints`, `COLORS`, `createDataset`, and the `DOMContentLoaded`
handler with `getVisibleMetrics`, `createDatasets`, the chart construction
with its fallback path, the no-data notice, the numeric-range input
handler, and the aquarium selector background logic.

Modelling conventions:
* JavaScript numbers are modelled by `JSNum`: `nan`, the two infinities,
  and finite values as rationals.  The double rounding of IEEE-754 is
  abstracted away; none of the properties proved here depend on it.
* JavaScript string values that may also be `null`/`undefined`/absent are
  modelled as `Option String`, with `none` standing for a nullish value
  and the empty string being the only falsy string.
* `parseFloat` is modelled after the ECMAScript definition (leading
  whitespace, optional sign, `Infinity` or a decimal literal with optional
  exponent; the longest valid prefix is taken, `nan` if there is none).
* `new Date(s + "T12:00:00")` is modelled for the ISO `YYYY-MM-DD` date
  grammar (the format the application's records use); the local timezone
  offset is modelled as zero, which does not affect any property proved
  here (only ordering of instants and one concrete timestamp are used).
-/

namespace Acuario

/-- Model of a JavaScript number: NaN, the infinities, or a finite value. -/
inductive JSNum where
  | nan : JSNum
  | posInf : JSNum
  | negInf : JSNum
  | num : ℚ → JSNum
deriving DecidableEq, Repr

namespace JSNum

/-- The JavaScript `isNaN` test on an already-numeric value. -/
def isNaN : JSNum → Bool
  | .nan => true
  | _ => false

/-- Whether the value is finite (neither NaN nor an infinity). -/
def isFinite : JSNum → Bool
  | .num _ => true
  | _ => false

/-- JavaScript `<` on numbers: any comparison involving NaN is false. -/
def lt : JSNum → JSNum → Bool
  | .num a, .num b => a < b
  | .num _, .posInf => true
  | .negInf, .num _ => true
  | .negInf, .posInf => true
  | _, _ => false

/-- Rendering of a number by JavaScript string interpolation.  Exact for
NaN, the infinities and integers, which is all this development needs;
the shortest-roundtrip decimal rendering of non-integral doubles is
abstracted by a numerator/denominator rendering. -/
def render : JSNum → String
  | .nan => "NaN"
  | .posInf => "Infinity"
  | .negInf => "-Infinity"
  | .num q => if q.den = 1 then toString q.num else toString q

end JSNum

/-- Digit test for ASCII characters. -/
def isDigit (c : Char) : Bool := '0' ≤ c && c ≤ '9'

/-- Whitespace as skipped by `parseFloat` and `String.prototype.trim`
(the ASCII white-space characters; the exotic Unicode ones are not
produced by this application). -/
def isWS (c : Char) : Bool :=
  c = ' ' || c = '\t' || c = '\n' || c = '\r' ||
  c = Char.ofNat 11 || c = Char.ofNat 12

/-- Numeric value of a list of ASCII digits. -/
def digitsVal (cs : List Char) : ℕ :=
  cs.foldl (fun a c => a * 10 + (c.toNat - 48)) 0

/-- Parse an exponent part `e`/`E` with optional sign; returns the
exponent of the longest valid prefix, `0` when the exponent part is
absent or incomplete (in which case `parseFloat` does not consume it). -/
def parseExponent : List Char → ℤ
  | 'e' :: rest => parseExponentSigned rest
  | 'E' :: rest => parseExponentSigned rest
  | _ => 0
where
  /-- Sign and digits of the exponent. -/
  parseExponentSigned : List Char → ℤ
    | '+' :: rest => parseExponentDigits rest 1
    | '-' :: rest => parseExponentDigits rest (-1)
    | rest => parseExponentDigits rest 1
  /-- Digits of the exponent; an empty digit string invalidates the
  exponent part, leaving the exponent at zero. -/
  parseExponentDigits (cs : List Char) (sign : ℤ) : ℤ :=
    let ds := cs.takeWhile isDigit
    if ds.isEmpty then 0 else sign * (digitsVal ds : ℤ)

/-- Value of a signed mantissa times a signed power of ten, as a rational
(kept as a single `mkRat` so that the kernel can evaluate it). -/
def decimalValue (m : ℤ) (k : ℤ) : ℚ :=
  if 0 ≤ k then mkRat (m * 10 ^ k.toNat) 1 else mkRat m (10 ^ (-k).toNat)

/-- Body of `parseFloat` after the optional sign has been consumed. -/
def parseFloatBody (cs : List Char) (neg : Bool) : JSNum :=
  if ("Infinity".toList).isPrefixOf cs then
    if neg then .negInf else .posInf
  else
    let ip := cs.takeWhile isDigit
    let rest := cs.drop ip.length
    let fp :=
      match rest with
      | '.' :: r => r.takeWhile isDigit
      | _ => []
    let rest2 :=
      match rest with
      | '.' :: r => r.drop fp.length
      | _ => rest
    if ip.isEmpty && fp.isEmpty then .nan
    else
      let m : ℤ := (if neg then -1 else 1) * (digitsVal (ip ++ fp) : ℤ)
      .num (decimalValue m (parseExponent rest2 - fp.length))

/-- Model of the ECMAScript `parseFloat`: skip leading whitespace, read an
optional sign, then `Infinity` or a decimal literal; NaN when no valid
prefix exists. -/
def parseFloat (s : String) : JSNum :=
  match s.toList.dropWhile isWS with
  | '+' :: rest => parseFloatBody rest false
  | '-' :: rest => parseFloatBody rest true
  | rest => parseFloatBody rest false

/-- JavaScript `parseFloat` applied to a possibly nullish value;
`parseFloat(undefined)` and `parseFloat(null)` are NaN. -/
def parseFloatOpt : Option String → JSNum
  | none => .nan
  | some s => parseFloat s

/-- Truthiness of a possibly nullish string: `undefined`, `null` and the
empty string are falsy. -/
def truthy : Option String → Bool
  | none => false
  | some s => s ≠ ""

/-- Trim leading and trailing whitespace from a character list
(model of `String.prototype.trim`). -/
def trimChars (cs : List Char) : List Char :=
  ((cs.dropWhile isWS).reverse.dropWhile isWS).reverse

/-- Whether a year is a leap year (Gregorian rule). -/
def isLeap (y : ℤ) : Bool := (y % 4 = 0 && y % 100 ≠ 0) || y % 400 = 0

/-- Number of days in a month. -/
def daysInMonth (y : ℤ) (m : ℕ) : ℕ :=
  if m = 2 then (if isLeap y then 29 else 28)
  else if m = 4 || m = 6 || m = 9 || m = 11 then 30
  else 31

/-- Days from the civil epoch 1970-01-01 to the given calendar date
(Gregorian calendar, proleptic). -/
def daysFromCivil (y : ℤ) (m d : ℕ) : ℤ :=
  let y' : ℤ := if m ≤ 2 then y - 1 else y
  let era : ℤ := (if 0 ≤ y' then y' else y' - 399) / 400
  let yoe : ℤ := y' - era * 400
  let mp : ℤ := ((m : ℤ) + 9) % 12
  let doy : ℤ := (153 * mp + 2) / 5 + (d : ℤ) - 1
  let doe : ℤ := yoe * 365 + yoe / 4 - yoe / 100 + doy
  era * 146097 + doe - 719468

/-- Parse a strict ISO `YYYY-MM-DD` date string; returns the epoch
timestamp in milliseconds of that date at 12:00:00 (the application
appends `"T12:00:00"` before construction; the local offset is modelled
as zero).  Any other shape, or an out-of-range month or day, is an
invalid date, as ECMAScript's ISO date-time parsing rejects it once the
time suffix is appended. -/
def parseISODateNoon (cs : List Char) : Option ℤ :=
  match cs with
  | [y1, y2, y3, y4, '-', m1, m2, '-', d1, d2] =>
    if [y1, y2, y3, y4, m1, m2, d1, d2].all isDigit then
      let y : ℤ := (digitsVal [y1, y2, y3, y4] : ℤ)
      let m := digitsVal [m1, m2]
      let d := digitsVal [d1, d2]
      if 1 ≤ m && m ≤ 12 && 1 ≤ d && d ≤ daysInMonth y m then
        some (daysFromCivil y m d * 86400000 + 43200000)
      else none
    else none
  | _ => none

/-- Result of the source's `parseDate`: `null` for a falsy argument,
otherwise a `Date` object that is either invalid (`getTime()` is NaN) or
carries a timestamp. -/
inductive DateVal where
  | null : DateVal
  | invalid : DateVal
  | valid : ℤ → DateVal
deriving DecidableEq, Repr

/-- Embedding of `parseDate` from `src/static/app.js`:
`if (!dateStr) return null; return new Date(String(dateStr).trim() + "T12:00:00")`. -/
def parseDate (dateStr : Option String) : DateVal :=
  if truthy dateStr then
    match parseISODateNoon (trimChars (dateStr.getD "").toList) with
    | some ms => .valid ms
    | none => .invalid
  else .null

/-- A measurement record as delivered by the server: a possibly absent
date, and named fields whose values are strings or nullish.  A `none`
element of the raw list models a nullish array entry (filtered out by the
`d &&` guard in `buildPoints`). -/
structure Rec where
  date : Option String
  fields : List (String × Option String)
deriving DecidableEq, Repr

/-- Property access `r[key]`: `none` when the field is absent or nullish. -/
def getField (r : Rec) (key : String) : Option String :=
  (r.fields.lookup key).join

/-- A chart point `{x: date, y: value}`; `x` is the date's epoch
timestamp in milliseconds. -/
structure Point where
  x : ℤ
  y : JSNum
deriving DecidableEq, Repr

/-- The order the comparator `(a, b) => a.x - b.x` sorts by. -/
def ptLE (a b : Point) : Prop := a.x ≤ b.x

instance : DecidableRel ptLE := fun a b => inferInstanceAs (Decidable (a.x ≤ b.x))

instance : IsTotal Point ptLE := ⟨fun a b => Int.le_total a.x b.x⟩

instance : IsTrans Point ptLE := ⟨fun _ _ _ hab hbc => le_trans hab hbc⟩

/-- Stable ascending sort by `x`, the effect of
`.sort((a, b) => a.x - b.x)` on an array of points. -/
def sortByX (l : List Point) : List Point := l.insertionSort ptLE

/-- The filter step of `buildPoints`:
`d && d.date && d[key] != null && d[key] !== ''`. -/
def keepsRecord (key : String) : Option Rec → Bool
  | none => false
  | some r => truthy r.date && truthy (getField r key)

/-- The map step of `buildPoints`: parse date and value, `none` (the
source's `null`, removed by the subsequent filter) when either is
invalid. -/
def recPoint (key : String) : Option Rec → Option Point
  | none => none
  | some r =>
    match parseDate r.date with
    | .valid ms =>
      let v := parseFloatOpt (getField r key)
      if v.isNaN then none else some ⟨ms, v⟩
    | _ => none

/-- Embedding of `buildPoints`: filter, map-to-point-or-null, drop nulls
(the map and null-filter are fused into `filterMap`), sort ascending by
date. -/
def buildPoints (data : List (Option Rec)) (key : String) : List Point :=
  sortByX ((data.filter (keepsRecord key)).filterMap (recPoint key))

/-- The `COLORS` table of `src/static/app.js`. -/
def COLORS : List (String × String) :=
  [("nitrate", "#ff6b6b"), ("phosphate", "#4ecdc4"), ("kh", "#45b7d1"),
   ("magnesium", "#f7b731"), ("calcium", "#a55eea")]

/-- Color lookup `COLORS[key] || '#ffffff'`. -/
def colorFor (key : String) : String := (COLORS.lookup key).getD "#ffffff"

/-- A styled chart dataset as produced by `createDataset`. -/
structure Dataset where
  label : String
  data : List Point
  borderColor : String
  backgroundColor : String
  borderWidth : ℕ
  pointRadius : ℕ
  pointHoverRadius : ℕ
  fill : Bool
  tension : ℚ
  spanGaps : Bool
deriving DecidableEq, Repr

/-- Embedding of `createDataset`. -/
def createDataset (label : String) (points : List Point) (key : String) : Dataset :=
  { label := label
    data := points
    borderColor := colorFor key
    backgroundColor := colorFor key ++ "20"
    borderWidth := 2
    pointRadius := 4
    pointHoverRadius := 6
    fill := false
    tension := mkRat 1 10
    spanGaps := false }

/-- A metric toggle checkbox: its checked state and its `value`. -/
structure Toggle where
  checked : Bool
  value : String
deriving DecidableEq, Repr

/-- The `metrics` table of the `DOMContentLoaded` handler:
key and display label. -/
def metrics : List (String × String) :=
  [("nitrate", "NO₃ (mg/L)"), ("phosphate", "PO₄ (mg/L)"), ("kh", "KH (dKH)"),
   ("magnesium", "Mg (ppm)"), ("calcium", "Ca (ppm)")]

/-- Embedding of `getVisibleMetrics`: the values of the checked toggles,
or `["nitrate"]` when none is checked. -/
def getVisibleMetrics (toggles : List Toggle) : List String :=
  let checked := (toggles.filter (fun t => t.checked)).map (fun t => t.value)
  if checked.length ≠ 0 then checked else ["nitrate"]

/-- Embedding of `createDatasets`: for each visible metric key that is in
the `metrics` table, build its points and push a styled dataset when at
least one valid point exists. -/
def createDatasets (rawData : List (Option Rec)) (toggles : List Toggle) : List Dataset :=
  (getVisibleMetrics toggles).foldl
    (fun datasets key =>
      match metrics.find? (fun m => m.1 == key) with
      | some m =>
        let points := buildPoints rawData key
        if 0 < points.length then datasets ++ [createDataset m.2 points key]
        else datasets
      | none => datasets)
    []

/-- Type of the horizontal axis in a chart configuration. -/
inductive XAxis where
  | time : XAxis
  | linear : XAxis
deriving DecidableEq, Repr

/-- The part of a chart configuration that the fallback path changes. -/
structure ChartData where
  xAxis : XAxis
  datasets : List Dataset
deriving DecidableEq, Repr

/-- The fallback transformation of one dataset:
`data.map((point, index) => ({x: index, y: point.y}))`. -/
def indexPoints (ds : Dataset) : Dataset :=
  { ds with data := ds.data.enum.map (fun ip => { x := (ip.1 : ℤ), y := ip.2.y }) }

/-- Model of one `new Chart(ctx, cfg)` call: the constructor either
throws (modelled by the `fails` flag, standing for e.g. an unavailable
time-axis plugin) or returns a chart built from the configuration. -/
def tryConstruct (fails : Bool) (cfg : ChartData) : Except Unit ChartData :=
  if fails then .error () else .ok cfg

/-- Observable outcome of the chart part of the `DOMContentLoaded`
handler.  The handler catches every construction failure, so its result
type has no error component: no exception escapes. -/
structure SetupResult where
  chart : Option ChartData
  constructAttempts : ℕ
  noticeAppended : Bool
deriving DecidableEq, Repr

/-- Embedding of the chart construction logic of the `DOMContentLoaded`
handler: the primary construction with a time axis, one fallback attempt
with a linear axis and position-indexed x-values if the primary throws,
and the no-data notice appended exactly when the raw list is empty. -/
def chartSetup (rawData : List (Option Rec)) (toggles : List Toggle)
    (primaryFails fallbackFails : Bool) : SetupResult :=
  let primary : ChartData :=
    { xAxis := .time, datasets := createDatasets rawData toggles }
  let outcome :=
    match tryConstruct primaryFails primary with
    | .ok c => (some c, 1)
    | .error _ =>
      let fallback : ChartData :=
        { xAxis := .linear
          datasets := (createDatasets rawData toggles).map indexPoints }
      match tryConstruct fallbackFails fallback with
      | .ok c => (some c, 2)
      | .error _ => (none, 2)
  { chart := outcome.1
    constructAttempts := outcome.2
    noticeAppended := rawData.length == 0 }

/-- A JSON response body: an array of records or something else. -/
inductive JsonBody where
  | arr : List (Option Rec) → JsonBody
  | nonArray : JsonBody
deriving DecidableEq, Repr

/-- Behaviour of the network for one fetch: the fetch itself throws, or a
response arrives with an `ok` flag and a body; `none` as body means
`res.json()` throws (malformed body). -/
inductive FetchBehavior where
  | networkError : FetchBehavior
  | response : Bool → Option JsonBody → FetchBehavior
deriving DecidableEq, Repr

/-- Embedding of `fetchMeasurements`: empty list for a falsy identifier,
a thrown fetch, a non-ok status, a malformed body, or a non-array body;
the parsed records otherwise.  Totality of this function models that the
`try`/`catch` lets no rejection escape. -/
def fetchMeasurements (aqId : Option String) (behavior : FetchBehavior) :
    List (Option Rec) :=
  if truthy aqId = false then []
  else
    match behavior with
    | .networkError => []
    | .response ok body =>
      if ok = false then []
      else
        match body with
        | none => []
        | some (.arr records) => records
        | some .nonArray => []

/-- Observable state of a numeric input element: its `value` and its
`min`/`max` attribute reflections (the empty string when the attribute is
absent), its class list and its `title`. -/
structure InputState where
  value : String
  min : String
  max : String
  classes : List String
  title : String
deriving DecidableEq, Repr

/-- Effect of `classList.remove('border-success', 'border-warning',
'border-danger')`. -/
def stripRangeClasses (cs : List String) : List String :=
  cs.filter (fun c => c ≠ "border-success" && c ≠ "border-warning" && c ≠ "border-danger")

/-- Effect of `classList.add(c)`: appends unless already present. -/
def addClass (cs : List String) (c : String) : List String :=
  if c ∈ cs then cs else cs ++ [c]

/-- The out-of-range tooltip template string. -/
def outOfRangeTitle (mn mx : JSNum) : String :=
  "Valor fuera del rango recomendado (" ++ mn.render ++ "-" ++ mx.render ++ ")"

/-- The in-range tooltip string. -/
def inRangeTitle : String := "Valor dentro del rango óptimo"

/-- Embedding of the `input` handler installed on every
`input[type="number"]`: parse value and bounds, strip the three range
classes, stop if the value is NaN, otherwise classify.  The source's
guard `min !== undefined && max !== undefined` is always satisfied
because `parseFloat` returns a number (possibly NaN), so it does not
appear as a branch here. -/
def rangeInputHandler (s : InputState) : InputState :=
  let value := parseFloat s.value
  let mn := parseFloat s.min
  let mx := parseFloat s.max
  let stripped : InputState := { s with classes := stripRangeClasses s.classes }
  if value.isNaN then stripped
  else if value.lt mn || mx.lt value then
    { stripped with
        classes := addClass stripped.classes "border-danger"
        title := outOfRangeTitle mn mx }
  else
    { stripped with
        classes := addClass stripped.classes "border-success"
        title := inRangeTitle }

/-- Background-related state of the aquarium selector and its optional
preview element (`none` when the preview element is absent from the
page). -/
structure BgState where
  selectorBg : String
  hasBackgroundClass : Bool
  previewBg : Option String
deriving DecidableEq, Repr

/-- CSS value `url('...')` built by the template string in
`setBackground`. -/
def cssUrl (u : String) : String := "url(\x27" ++ u ++ "\x27)"

/-- Embedding of `setBackground` for one invocation: clear the previous
styling, then, if the selected option carries a truthy image URL, apply
it to the selector and the preview only when the probe image load
succeeds (`loads`); a failed load only logs a warning. -/
def setBackground (st : BgState) (imageUrl : Option String) (loads : Bool) : BgState :=
  let cleared : BgState :=
    { selectorBg := ""
      hasBackgroundClass := false
      previewBg := st.previewBg.map (fun _ => "") }
  if truthy imageUrl then
    if loads then
      { selectorBg := cssUrl (imageUrl.getD "")
        hasBackgroundClass := true
        previewBg := cleared.previewBg.map (fun _ => cssUrl (imageUrl.getD "")) }
    else cleared
  else cleared

/-! Example inputs used by witnesses and counterexamples. -/

/-- The three-record list of the specification's worked example. -/
def exampleRecords : List (Option Rec) :=
  [some ⟨some "2024-01-01", [("nitrate", some "5")]⟩,
   some ⟨some "2024-01-03", [("nitrate", some "bad")]⟩,
   some ⟨some "2024-01-02", [("nitrate", some "7")]⟩]

/-- A record whose nitrate value is the string `"Infinity"`. -/
def infinityRecord : List (Option Rec) :=
  [some ⟨some "2024-01-01", [("nitrate", some "Infinity")]⟩]

/-- A single well-formed record with one nitrate measurement. -/
def oneRecord : List (Option Rec) :=
  [some ⟨some "2024-01-01", [("nitrate", some "5")]⟩]

/-! Helper lemmas. -/

/-- Building points from an empty record list yields no points. -/
lemma buildPoints_nil (key : String) : buildPoints [] key = [] := rfl

/-- A fold whose step fixes the empty list keeps the empty list. -/
lemma foldl_nil_of_step {α β : Type} (f : List β → α → List β)
    (hf : ∀ a, f [] a = []) : ∀ l : List α, l.foldl f [] = []
  | [] => rfl
  | a :: l => by rw [List.foldl_cons, hf a]; exact foldl_nil_of_step f hf l

/-- With no records there are no datasets, whatever the toggles say. -/
lemma createDatasets_nil (toggles : List Toggle) : createDatasets [] toggles = [] := by
  unfold createDatasets
  apply foldl_nil_of_step
  intro key
  cases h : metrics.find? (fun m => m.1 == key) <;> simp [h, buildPoints_nil]

/-- The class added by `classList.add` is a member of the result. -/
lemma mem_addClass (cs : List String) (c : String) : c ∈ addClass cs c := by
  unfold addClass
  split
  · assumption
  · simp

/-- The `y` components survive the fallback reindexing (generalized over
the start index of the enumeration). -/
lemma enumFrom_points_y (n : ℕ) (l : List Point) :
    (((List.enumFrom n l).map fun ip => Point.mk (ip.1 : ℤ) ip.2.y).map fun p => p.y) =
      l.map fun p => p.y := by
  induction l generalizing n with
  | nil => rfl
  | cons a l ih => simpa [List.enumFrom] using ih (n + 1)

/-- The `x` components after the fallback reindexing are the positions
(generalized over the start index of the enumeration). -/
lemma enumFrom_points_x (n : ℕ) (l : List Point) :
    (((List.enumFrom n l).map fun ip => Point.mk (ip.1 : ℤ) ip.2.y).map fun p => p.x) =
      (List.range' n l.length).map fun i => (i : ℤ) := by
  induction l generalizing n with
  | nil => rfl
  | cons a l ih => simpa [List.enumFrom, List.range'] using ih (n + 1)

/-- The fallback transformation keeps every `y` value. -/
lemma indexPoints_y (ds : Dataset) :
    ((indexPoints ds).data.map fun p => p.y) = ds.data.map fun p => p.y := by
  simpa [indexPoints] using enumFrom_points_y 0 ds.data

/-- The fallback transformation replaces every `x` value by the point's
position in its dataset. -/
lemma indexPoints_x (ds : Dataset) :
    ((indexPoints ds).data.map fun p => p.x) =
      (List.range ds.data.length).map fun i => (i : ℤ) := by
  rw [List.range_eq_range']
  simpa [indexPoints] using enumFrom_points_x 0 ds.data

/-! Claim theorems. -/

/-- C1, counterexample: on an empty raw record list the handler still
constructs a chart object (with no datasets); the claim that no chart
object is constructed is false, while the notice is indeed appended. -/
theorem emptyRaw_chart_still_constructed :
    (chartSetup [] [] false false).chart.isSome = true ∧
    (chartSetup [] [] false false).noticeAppended = true := by decide

/-- C1, amended: if the raw record list is empty, the chart is
constructed with an empty dataset list (no chart content, on the primary
and on the fallback path alike), and the static no-data notice is
appended below the canvas in every case. -/
theorem emptyRaw_notice_and_no_content (toggles : List Toggle) (pf ff : Bool) :
    (chartSetup [] toggles pf ff).noticeAppended = true ∧
    (chartSetup [] toggles false ff).chart =
      some { xAxis := XAxis.time, datasets := [] } ∧
    (chartSetup [] toggles true false).chart =
      some { xAxis := XAxis.linear, datasets := [] } := by
  have h := createDatasets_nil toggles
  refine ⟨?_, ?_, ?_⟩ <;> simp [chartSetup, tryConstruct, h]

/-- C2, counterexample: a record whose value string is `"Infinity"`
passes the NaN filter, so the point builder emits a point whose `y` is
not finite. -/
theorem buildPoints_emits_nonfinite :
    buildPoints infinityRecord "nitrate" = [⟨1704110400000, JSNum.posInf⟩] ∧
    JSNum.posInf.isFinite = false := by decide

/-- C2, amended: every point emitted by the point builder has a `y` that
is a number other than NaN (finiteness is not guaranteed) and an `x`
that is the timestamp of a date of some input record that parsed to a
valid date. -/
theorem buildPoints_points_valid (data : List (Option Rec)) (key : String) (p : Point)
    (hp : p ∈ buildPoints data key) :
    p.y.isNaN = false ∧
    ∃ r : Rec, some r ∈ data ∧ parseDate r.date = DateVal.valid p.x := by
  unfold buildPoints sortByX at hp
  rw [List.mem_insertionSort, List.mem_filterMap] at hp
  obtain ⟨d, hd, hdp⟩ := hp
  rw [List.mem_filter] at hd
  cases d with
  | none => simp [recPoint] at hdp
  | some r =>
    simp only [recPoint] at hdp
    cases hdate : parseDate r.date with
    | null => rw [hdate] at hdp; simp at hdp
    | invalid => rw [hdate] at hdp; simp at hdp
    | valid ms =>
      rw [hdate] at hdp
      by_cases hnan : (parseFloatOpt (getField r key)).isNaN = true
      · simp [hnan] at hdp
      · simp only [Bool.not_eq_true] at hnan
        simp [hnan] at hdp
        refine ⟨?_, r, hd.1, ?_⟩
        · rw [← hdp]; exact hnan
        · rw [← hdp]; exact hdate

/-- C2, witness for the amended theorem at a concrete record list and
point. -/
theorem buildPoints_points_valid_witness :
    (JSNum.num 5).isNaN = false ∧
    ∃ r : Rec, some r ∈ oneRecord ∧
      parseDate r.date = DateVal.valid (1704110400000 : ℤ) := by
  have h := buildPoints_points_valid oneRecord "nitrate"
    ⟨1704110400000, JSNum.num 5⟩ (by decide)
  simpa using h

/-- C3, counterexample: with no toggle checked the visible-metric list
does default to nitrate, but with no usable nitrate points the computed
dataset set is empty, not a single dataset. -/
theorem noToggle_dataset_set_can_be_empty :
    getVisibleMetrics [] = ["nitrate"] ∧ createDatasets [] [] = [] := by decide

/-- C3, amended: when no toggle is checked the visible metric list
defaults to exactly `["nitrate"]`, and the computed dataset set is the
single nitrate dataset when the records yield at least one valid nitrate
point, and empty otherwise. -/
theorem createDatasets_default_nitrate (rawData : List (Option Rec))
    (toggles : List Toggle) (h : (toggles.all fun t => !t.checked) = true) :
    getVisibleMetrics toggles = ["nitrate"] ∧
    createDatasets rawData toggles =
      (if 0 < (buildPoints rawData "nitrate").length then
        [createDataset "NO₃ (mg/L)" (buildPoints rawData "nitrate") "nitrate"]
      else []) := by
  have hfilter : toggles.filter (fun t => t.checked) = [] := by
    rw [List.filter_eq_nil_iff]
    intro t ht
    have := (List.all_eq_true.mp h) t ht
    simp at this
    simp [this]
  have hvis : getVisibleMetrics toggles = ["nitrate"] := by
    simp [getVisibleMetrics, hfilter]
  refine ⟨hvis, ?_⟩
  have hfind : metrics.find? (fun m => m.1 == "nitrate") =
      some ("nitrate", "NO₃ (mg/L)") := rfl
  unfold createDatasets
  rw [hvis]
  simp only [List.foldl_cons, List.foldl_nil, hfind]
  split <;> simp

/-- C3, witness for the amended theorem at concrete records and
toggles. -/
theorem createDatasets_default_nitrate_witness :
    getVisibleMetrics [⟨false, "kh"⟩] = ["nitrate"] ∧
    createDatasets oneRecord [⟨false, "kh"⟩] =
      (if 0 < (buildPoints oneRecord "nitrate").length then
        [createDataset "NO₃ (mg/L)" (buildPoints oneRecord "nitrate") "nitrate"]
      else []) :=
  createDatasets_default_nitrate oneRecord [⟨false, "kh"⟩] (by decide)

/-- C4, counterexample: on a value that does not parse as a number the
handler is not a no-op on the styling classes: it has already removed
the previously present range classes. -/
theorem rangeInput_nan_not_noop :
    (parseFloat "abc").isNaN = true ∧
    (rangeInputHandler ⟨"abc", "0", "10", ["border-success"], "t"⟩).classes ≠
      (⟨"abc", "0", "10", ["border-success"], "t"⟩ : InputState).classes := by decide

/-- C4, amended: the handler first strips the range styling classes; if
the value does not parse as a number it stops there (previously present
range classes are removed, nothing else changes); if the value parses
and is below or above the range it adds the out-of-range styling class
`border-danger` and sets the explanatory tooltip; if the value parses
and is within the range it adds `border-success` and sets the
optimal-range tooltip. -/
theorem rangeInput_classification (s : InputState) :
    ((parseFloat s.value).isNaN = true →
      rangeInputHandler s = { s with classes := stripRangeClasses s.classes }) ∧
    ((parseFloat s.value).isNaN = false →
      ((((parseFloat s.value).lt (parseFloat s.min) ||
          (parseFloat s.max).lt (parseFloat s.value)) = true →
        "border-danger" ∈ (rangeInputHandler s).classes ∧
        (rangeInputHandler s).title =
          outOfRangeTitle (parseFloat s.min) (parseFloat s.max)) ∧
       (((parseFloat s.value).lt (parseFloat s.min) ||
          (parseFloat s.max).lt (parseFloat s.value)) = false →
        "border-success" ∈ (rangeInputHandler s).classes ∧
        (rangeInputHandler s).title = inRangeTitle))) := by
  refine ⟨fun h => ?_, fun h => ⟨fun hc => ?_, fun hc => ?_⟩⟩
  · simp [rangeInputHandler, h]
  · simp [rangeInputHandler, h, hc, mem_addClass]
  · simp [rangeInputHandler, h, hc, mem_addClass]

/-- C4, witness for the amended theorem: a value above the range gets
the out-of-range class and tooltip. -/
theorem rangeInput_classification_witness :
    "border-danger" ∈ (rangeInputHandler ⟨"15", "0", "10", [], ""⟩).classes ∧
    (rangeInputHandler ⟨"15", "0", "10", [], ""⟩).title =
      outOfRangeTitle (parseFloat "0") (parseFloat "10") :=
  ((rangeInput_classification ⟨"15", "0", "10", [], ""⟩).2 (by decide)).1 (by decide)

/-- C5: a failed primary construction triggers exactly one fallback
construction attempt (two constructor calls in total, one otherwise)
whose horizontal axis is linear and whose datasets are the computed
datasets with each point's `x` replaced by its position in its sorted
sequence and its `y` kept; if the fallback also fails no chart object is
produced.  That no exception escapes is modelled by `chartSetup` being a
total function into `SetupResult`, which has no error component. -/
theorem chartFallback_once (rawData : List (Option Rec)) (toggles : List Toggle) :
    (chartSetup rawData toggles false false).constructAttempts = 1 ∧
    (chartSetup rawData toggles true false).constructAttempts = 2 ∧
    (chartSetup rawData toggles true true).constructAttempts = 2 ∧
    (chartSetup rawData toggles true true).chart = none ∧
    (chartSetup rawData toggles true false).chart =
      some { xAxis := XAxis.linear
             datasets := (createDatasets rawData toggles).map indexPoints } ∧
    (∀ ds : Dataset, ((indexPoints ds).data.map fun p => p.y) =
      ds.data.map fun p => p.y) ∧
    (∀ ds : Dataset, ((indexPoints ds).data.map fun p => p.x) =
      (List.range ds.data.length).map fun i => (i : ℤ)) :=
  ⟨rfl, rfl, rfl, rfl, rfl, indexPoints_y, indexPoints_x⟩

/-- C6: the data loader returns the empty list on every failure case
(falsy identifier, thrown fetch, non-ok status, malformed body, non-array
body) and the parsed records exactly when the identifier is truthy, the
status is ok and the body is an array.  That no rejection escapes is
modelled by `fetchMeasurements` being a total function. -/
theorem fetchMeasurements_spec (aqId : Option String) (behavior : FetchBehavior) :
    fetchMeasurements none behavior = [] ∧
    fetchMeasurements (some "") behavior = [] ∧
    fetchMeasurements aqId FetchBehavior.networkError = [] ∧
    (∀ body : Option JsonBody,
      fetchMeasurements aqId (FetchBehavior.response false body) = []) ∧
    fetchMeasurements aqId (FetchBehavior.response true none) = [] ∧
    fetchMeasurements aqId (FetchBehavior.response true (some JsonBody.nonArray)) = [] ∧
    (∀ records : List (Option Rec), truthy aqId = true →
      fetchMeasurements aqId
        (FetchBehavior.response true (some (JsonBody.arr records))) = records) := by
  refine ⟨rfl, rfl, ?_, fun body => ?_, ?_, ?_, fun records ht => ?_⟩ <;>
    by_cases h : truthy aqId = false <;>
      simp_all [fetchMeasurements]

/-- C6, witness at a concrete identifier and record list. -/
theorem fetchMeasurements_spec_witness :
    fetchMeasurements (some "1")
      (FetchBehavior.response true (some (JsonBody.arr oneRecord))) = oneRecord :=
  (fetchMeasurements_spec (some "1")
    FetchBehavior.networkError).2.2.2.2.2.2 oneRecord (by decide)

/-- C7: for every input record list and metric key the point list
returned by the point builder is sorted ascending by date. -/
theorem buildPoints_sorted (data : List (Option Rec)) (key : String) :
    List.Sorted (fun a b : Point => a.x ≤ b.x) (buildPoints data key) := by
  unfold buildPoints sortByX
  exact List.sorted_insertionSort ptLE _

/-- C8: on the specification's worked example the nitrate series is
exactly the two points for January 1 (value 5) and January 2 (value 7),
at their noon timestamps: the record with the unparseable value is
dropped and the remainder is sorted ascending by date. -/
theorem buildPoints_worked_example :
    buildPoints exampleRecords "nitrate" =
      [⟨1704110400000, JSNum.num 5⟩, ⟨1704196800000, JSNum.num 7⟩] ∧
    parseDate (some "2024-01-01") = DateVal.valid 1704110400000 ∧
    parseDate (some "2024-01-02") = DateVal.valid 1704196800000 := by decide

/-- C9, counterexample: when the probe image load fails the selector's
background styling does not stay as it was: the handler has already
cleared it. -/
theorem imageError_background_cleared :
    (setBackground ⟨"url(\x27a.png\x27)", true, some "url(\x27a.png\x27)"⟩
        (some "b.png") false).selectorBg = "" ∧
    (⟨"url(\x27a.png\x27)", true, some "url(\x27a.png\x27)"⟩ : BgState).selectorBg ≠ "" := by
  decide

/-- C9, amended: on a selection change whose image URL fails to load, no
new background is applied; the selector's and preview's background
styling is cleared at the start of the handler and remains cleared. -/
theorem setBackground_error_cleared (st : BgState) (url : String) (h : url ≠ "") :
    setBackground st (some url) false =
      { selectorBg := ""
        hasBackgroundClass := false
        previewBg := st.previewBg.map fun _ => "" } := by
  simp [setBackground, truthy, h]

/-- C9, witness for the amended theorem at a concrete prior state. -/
theorem setBackground_error_cleared_witness :
    setBackground ⟨"url(\x27a.png\x27)", true, some "url(\x27a.png\x27)"⟩
        (some "b.png") false =
      { selectorBg := ""
        hasBackgroundClass := false
        previewBg := (some "url(\x27a.png\x27)" : Option String).map fun _ => "" } :=
  setBackground_error_cleared
    ⟨"url(\x27a.png\x27)", true, some "url(\x27a.png\x27)"⟩ "b.png" (by decide)

/-- C10: on a numeric field without min/max attributes (their DOM
reflections are the empty string), a value that parses as a number still
gets the success class and the optimal-range tooltip, because the parsed
bounds are NaN (never undefined) and both out-of-range comparisons with
NaN are false. -/
theorem rangeInput_no_bounds_success (s : InputState)
    (hmin : s.min = "") (hmax : s.max = "")
    (hv : (parseFloat s.value).isNaN = false) :
    (parseFloat "").isNaN = true ∧
    (parseFloat s.value).lt (parseFloat "") = false ∧
    (parseFloat "").lt (parseFloat s.value) = false ∧
    "border-success" ∈ (rangeInputHandler s).classes ∧
    (rangeInputHandler s).title = inRangeTitle := by
  have h1 : (parseFloat s.value).lt (parseFloat "") = false := by
    cases parseFloat s.value <;> rfl
  have h2 : (parseFloat "").lt (parseFloat s.value) = false := by
    cases parseFloat s.value <;> rfl
  refine ⟨rfl, h1, h2, ?_, ?_⟩ <;>
    simp [rangeInputHandler, hmin, hmax, hv, h1, h2, mem_addClass]

/-- C10, witness at a concrete bound-less input state. -/
theorem rangeInput_no_bounds_success_witness :
    (parseFloat "").isNaN = true ∧
    (parseFloat "5").lt (parseFloat "") = false ∧
    (parseFloat "").lt (parseFloat "5") = false ∧
    "border-success" ∈ (rangeInputHandler ⟨"5", "", "", [], ""⟩).classes ∧
    (rangeInputHandler ⟨"5", "", "", [], ""⟩).title = inRangeTitle :=
  rangeInput_no_bounds_success ⟨"5", "", "", [], ""⟩ rfl rfl (by decide)

end Acuario
